import Mathlib

/-!
Shallow embedding of the `Http2RPC` class of rpcmate (the enhanced
variant shipping per-method bulkheads, a circuit breaker, the retry
engine and JWT RS256 validation), together with theorems settling the
specification claims about it.

JavaScript `Date.now()` timestamps and millisecond durations are
modelled as `Int`; counters as `Nat`; JavaScript's `x || d` defaulting
and truthiness tests are made explicit where they matter.
-/

namespace RpcMate

/-! ### Defaults (the `DEFAULTS` constant of the source) -/

namespace DEFAULTS

def FAILURE_THRESHOLD : Nat := 5
def RECOVERY_TIMEOUT : Int := 10000
def SUCCESS_THRESHOLD : Nat := 3
def MAX_RETRIES : Nat := 3
def INITIAL_DELAY : Int := 500
def MAX_DELAY : Int := 5000
def BACKOFF_FACTOR : Int := 2
def REQUEST_TIMEOUT : Int := 30000
def CONNECTION_TIMEOUT : Int := 5000
def MAX_CONCURRENT : Nat := 10
def MAX_QUEUE : Nat := 20
def QUEUE_TIMEOUT : Int := 10000
def JWT_ALGORITHM : String := "RS256"

end DEFAULTS

/-! ### Circuit breaker (`#getCircuitBreakerState`, `#updateCircuitBreakerOnSuccess`,
`#updateCircuitBreakerOnFailure`, `#checkCircuitBreaker`) -/

inductive CBState where
  | CLOSED
  | OPEN
  | HALF_OPEN
deriving DecidableEq, Repr

structure Circuit where
  state : CBState
  failureCount : Nat
  successCount : Nat
  lastFailureTime : Int
  nextAttemptTime : Int
deriving DecidableEq, Repr

/-- The fresh entry installed by `#getCircuitBreakerState` for an unseen URL. -/
def Circuit.initial : Circuit :=
  { state := .CLOSED, failureCount := 0, successCount := 0
    lastFailureTime := 0, nextAttemptTime := 0 }

structure CBConfig where
  enabled : Bool
  failureThreshold : Nat
  recoveryTimeout : Int
  successThreshold : Nat
deriving DecidableEq, Repr

/-- The `resilience.circuitBreaker` options object of the constructor:
each recognized key may be present or absent (spread semantics). -/
structure CircuitBreakerOptions where
  enabled : Option Bool := none
  failureThreshold : Option Nat := none
  recoveryTimeout : Option Int := none
  successThreshold : Option Nat := none
deriving Repr

/-- Constructor merge `{ enabled: true, ...DEFAULTS, ...options.resilience?.circuitBreaker }`. -/
def mkCircuitBreakerConfig (o : Option CircuitBreakerOptions) : CBConfig :=
  let o := o.getD {}
  { enabled := o.enabled.getD true
    failureThreshold := o.failureThreshold.getD DEFAULTS.FAILURE_THRESHOLD
    recoveryTimeout := o.recoveryTimeout.getD DEFAULTS.RECOVERY_TIMEOUT
    successThreshold := o.successThreshold.getD DEFAULTS.SUCCESS_THRESHOLD }

/-- `#updateCircuitBreakerOnSuccess`. -/
def updateCircuitBreakerOnSuccess (cfg : CBConfig) (c : Circuit) : Circuit :=
  if c.state = .HALF_OPEN then
    let c' := { c with successCount := c.successCount + 1 }
    if cfg.successThreshold ≤ c'.successCount then
      { c' with state := .CLOSED, failureCount := 0, successCount := 0 }
    else c'
  else if c.state = .CLOSED then
    { c with failureCount := 0 }
  else c

/-- `#updateCircuitBreakerOnFailure`; the `Bool` records whether
`metrics.circuitBreakerTrips` was incremented. -/
def updateCircuitBreakerOnFailure (cfg : CBConfig) (now : Int) (c : Circuit) :
    Circuit × Bool :=
  let c' := { c with failureCount := c.failureCount + 1
                     lastFailureTime := now
                     successCount := 0 }
  if c'.state = .CLOSED ∧ cfg.failureThreshold ≤ c'.failureCount then
    ({ c' with state := .OPEN, nextAttemptTime := now + cfg.recoveryTimeout }, true)
  else if c'.state = .HALF_OPEN then
    ({ c' with state := .OPEN, nextAttemptTime := now + cfg.recoveryTimeout }, false)
  else (c', false)

/-- Outcome of the gate check: either the request may proceed, or it is
blocked by the breaker — the `circuitOpen` kind, carrying the message of
the `Error` thrown by `request`. -/
inductive GateResult where
  | allowed
  | circuitOpen (message : String)
deriving DecidableEq, Repr

/-- `#checkCircuitBreaker`: may mutate the entry (OPEN → HALF_OPEN). -/
def checkCircuitBreaker (cfg : CBConfig) (serviceUrl : String) (now : Int)
    (c : Circuit) : Circuit × GateResult :=
  if cfg.enabled = false then (c, .allowed)
  else if c.state = .OPEN then
    if c.nextAttemptTime ≤ now then
      ({ c with state := .HALF_OPEN, successCount := 0 }, .allowed)
    else
      (c, .circuitOpen ("Circuit breaker is OPEN for " ++ serviceUrl))
  else (c, .allowed)

/-- `n` consecutive failed attempts, the `i`-th observed at time `nows i`;
returns the final circuit and the number of `circuitBreakerTrips` increments. -/
def applyFailures (cfg : CBConfig) (nows : Nat → Int) : Nat → Circuit → Circuit × Nat
  | 0, c => (c, 0)
  | n + 1, c =>
    let r := applyFailures cfg nows n c
    let s := updateCircuitBreakerOnFailure cfg (nows n) r.1
    (s.1, r.2 + (if s.2 then 1 else 0))

/-- `n` consecutive successful attempts. -/
def applySuccesses (cfg : CBConfig) : Nat → Circuit → Circuit
  | 0, c => c
  | n + 1, c => updateCircuitBreakerOnSuccess cfg (applySuccesses cfg n c)

lemma applyFailures_below (cfg : CBConfig) (nows : Nat → Int) :
    ∀ k, k < cfg.failureThreshold →
      (applyFailures cfg nows k Circuit.initial).1.state = .CLOSED ∧
      (applyFailures cfg nows k Circuit.initial).1.failureCount = k ∧
      (applyFailures cfg nows k Circuit.initial).1.nextAttemptTime = 0 ∧
      (applyFailures cfg nows k Circuit.initial).2 = 0 := by
  intro k
  induction k with
  | zero => intro _; exact ⟨rfl, rfl, rfl, rfl⟩
  | succ n ih =>
    intro hlt
    obtain ⟨hs, hf, hn, ht⟩ := ih (Nat.lt_of_succ_lt hlt)
    simp only [applyFailures, updateCircuitBreakerOnFailure]
    rw [hs, hf, hn, ht]
    have hcond : ¬ (cfg.failureThreshold ≤ n + 1) := by omega
    simp [hcond]

/-- **C2.** After `failureThreshold` consecutive failures from a fresh
(CLOSED) breaker, the breaker is OPEN, `nextAttemptTime` equals the time
of the tripping failure plus `recoveryTimeout`, `circuitBreakerTrips`
was incremented exactly once, and while `now < nextAttemptTime` the gate
check blocks with the circuit-open error (so `request` throws before
performing any attempt). -/
theorem circuitBreaker_trips_then_blocks (cfg : CBConfig) (url : String)
    (nows : Nat → Int) (hen : cfg.enabled = true)
    (hth : 1 ≤ cfg.failureThreshold) :
    (applyFailures cfg nows cfg.failureThreshold Circuit.initial).1.state = .OPEN ∧
    (applyFailures cfg nows cfg.failureThreshold Circuit.initial).1.nextAttemptTime
      = nows (cfg.failureThreshold - 1) + cfg.recoveryTimeout ∧
    (applyFailures cfg nows cfg.failureThreshold Circuit.initial).2 = 1 ∧
    ∀ now : Int,
      now < (applyFailures cfg nows cfg.failureThreshold Circuit.initial).1.nextAttemptTime →
      checkCircuitBreaker cfg url now
          (applyFailures cfg nows cfg.failureThreshold Circuit.initial).1
        = ((applyFailures cfg nows cfg.failureThreshold Circuit.initial).1,
            .circuitOpen ("Circuit breaker is OPEN for " ++ url)) := by
  obtain ⟨t, hT⟩ : ∃ t, cfg.failureThreshold = t + 1 :=
    ⟨cfg.failureThreshold - 1, by omega⟩
  obtain ⟨hs, hf, hn, htr⟩ := applyFailures_below cfg nows t (by omega)
  have hmain :
      (applyFailures cfg nows cfg.failureThreshold Circuit.initial).1.state = .OPEN ∧
      (applyFailures cfg nows cfg.failureThreshold Circuit.initial).1.nextAttemptTime
        = nows t + cfg.recoveryTimeout ∧
      (applyFailures cfg nows cfg.failureThreshold Circuit.initial).2 = 1 := by
    rw [hT]
    simp only [applyFailures, updateCircuitBreakerOnFailure]
    rw [hs, hf, htr]
    have hcond : (CBState.CLOSED = CBState.CLOSED ∧ cfg.failureThreshold ≤ t + 1) := by
      constructor
      · rfl
      · omega
    simp [hcond]
  obtain ⟨h1, h2, h3⟩ := hmain
  refine ⟨h1, by rw [h2, hT]; simp, h3, ?_⟩
  intro now hnow
  unfold checkCircuitBreaker
  rw [hen, h1]
  have : ¬ ((applyFailures cfg nows cfg.failureThreshold Circuit.initial).1.nextAttemptTime ≤ now) := by
    omega
  simp [this]

/-- Witness for C2 at `failureThreshold = 2`, failures at times 100, with
the gate probed at `now = 500 < 1100`. -/
theorem circuitBreaker_trips_then_blocks_witness :
    (applyFailures ⟨true, 2, 1000, 3⟩ (fun _ => 100) 2 Circuit.initial).1.state = .OPEN ∧
    (applyFailures ⟨true, 2, 1000, 3⟩ (fun _ => 100) 2 Circuit.initial).2 = 1 ∧
    checkCircuitBreaker ⟨true, 2, 1000, 3⟩ "http://svc" 500
        (applyFailures ⟨true, 2, 1000, 3⟩ (fun _ => 100) 2 Circuit.initial).1
      = ((applyFailures ⟨true, 2, 1000, 3⟩ (fun _ => 100) 2 Circuit.initial).1,
          .circuitOpen ("Circuit breaker is OPEN for " ++ "http://svc")) := by
  have h := circuitBreaker_trips_then_blocks ⟨true, 2, 1000, 3⟩ "http://svc"
    (fun _ => 100) rfl (by decide)
  exact ⟨h.1, h.2.2.1, h.2.2.2 500 (by decide)⟩

lemma applySuccesses_halfOpen_below (cfg : CBConfig) (c : Circuit)
    (hs : c.state = .HALF_OPEN) (hc : c.successCount = 0) :
    ∀ k, k < cfg.successThreshold →
      applySuccesses cfg k c = { c with successCount := k } := by
  intro k
  induction k with
  | zero =>
    intro _
    simp only [applySuccesses]
    rw [← hc]
  | succ n ih =>
    intro hlt
    have hprev := ih (Nat.lt_of_succ_lt hlt)
    simp only [applySuccesses, updateCircuitBreakerOnSuccess, hprev]
    rw [hs]
    have hcond : ¬ (cfg.successThreshold ≤ n + 1) := by omega
    simp [hcond]

/-- **C3.** (a) From OPEN, the first gate check at `now ≥ nextAttemptTime`
moves the breaker to HALF_OPEN with `successCount = 0` and allows the
request; (b) from HALF_OPEN with `successCount = 0`, `successThreshold`
consecutive successes return the breaker to CLOSED with both counters
zeroed; (c) from HALF_OPEN, a single failure returns it to OPEN with
`nextAttemptTime` re-armed to `now + recoveryTimeout`. -/
theorem circuitBreaker_halfOpen_cycle (cfg : CBConfig)
    (hen : cfg.enabled = true) (hth : 1 ≤ cfg.successThreshold) :
    (∀ (url : String) (now : Int) (c : Circuit),
      c.state = .OPEN → c.nextAttemptTime ≤ now →
      checkCircuitBreaker cfg url now c
        = ({ c with state := .HALF_OPEN, successCount := 0 }, .allowed)) ∧
    (∀ c : Circuit, c.state = .HALF_OPEN → c.successCount = 0 →
      applySuccesses cfg cfg.successThreshold c
        = { c with state := .CLOSED, failureCount := 0, successCount := 0 }) ∧
    (∀ (now : Int) (c : Circuit), c.state = .HALF_OPEN →
      updateCircuitBreakerOnFailure cfg now c
        = ({ c with state := .OPEN, failureCount := c.failureCount + 1
                    successCount := 0, lastFailureTime := now
                    nextAttemptTime := now + cfg.recoveryTimeout }, false)) := by
  refine ⟨?_, ?_, ?_⟩
  · intro url now c hs hn
    unfold checkCircuitBreaker
    rw [hen, hs]
    simp [hn]
  · intro c hs hc
    obtain ⟨t, hT⟩ : ∃ t, cfg.successThreshold = t + 1 := ⟨cfg.successThreshold - 1, by omega⟩
    have hprev := applySuccesses_halfOpen_below cfg c hs hc t (by omega)
    rw [hT]
    simp only [applySuccesses, hprev, updateCircuitBreakerOnSuccess]
    rw [hs]
    have hcond : cfg.successThreshold ≤ t + 1 := by omega
    simp [hcond]
  · intro now c hs
    unfold updateCircuitBreakerOnFailure
    rw [hs]
    have h1 : ¬ (CBState.HALF_OPEN = CBState.CLOSED ∧ cfg.failureThreshold ≤ c.failureCount + 1) := by
      rintro ⟨h, -⟩
      exact absurd h (by decide)
    simp [h1]

/-- Witness for C3 with `successThreshold = 2` on a concrete HALF_OPEN /
OPEN circuit. -/
theorem circuitBreaker_halfOpen_cycle_witness :
    checkCircuitBreaker ⟨true, 5, 1000, 2⟩ "u" 70
        ⟨.OPEN, 5, 0, 40, 60⟩
      = (⟨.HALF_OPEN, 5, 0, 40, 60⟩, .allowed) ∧
    applySuccesses ⟨true, 5, 1000, 2⟩ 2 ⟨.HALF_OPEN, 5, 0, 40, 60⟩
      = ⟨.CLOSED, 0, 0, 40, 60⟩ ∧
    updateCircuitBreakerOnFailure ⟨true, 5, 1000, 2⟩ 90 ⟨.HALF_OPEN, 5, 1, 40, 60⟩
      = (⟨.OPEN, 5 + 1, 0, 90, 90 + 1000⟩, false) := by
  have h := circuitBreaker_halfOpen_cycle ⟨true, 5, 1000, 2⟩ rfl (by decide)
  exact ⟨h.1 "u" 70 ⟨.OPEN, 5, 0, 40, 60⟩ rfl (by decide),
    h.2.1 ⟨.HALF_OPEN, 5, 0, 40, 60⟩ rfl rfl,
    h.2.2 90 ⟨.HALF_OPEN, 5, 1, 40, 60⟩ rfl⟩

/-! ### Per-method bulkhead (`#acquireMethodBulkheadPermit`,
`#releaseMethodBulkheadPermit` and the rejection handling of
`#handleRequest`).

A waiter enqueued by `#acquireMethodBulkheadPermit` is modelled by a
fresh natural-number id drawn from a counter, so ids record enqueue
order. The `admitted` field logs, in order, the ids dequeued by
`#releaseMethodBulkheadPermit`; FIFO admission is then the statement
that this log is strictly increasing. -/

structure BulkheadConfig where
  enabled : Bool
  maxConcurrentRequests : Nat
  maxQueueSize : Nat
  queueTimeout : Int
deriving DecidableEq, Repr

structure BulkheadState where
  active : Int
  queue : List Nat
  nextId : Nat
  admitted : List Nat
  rejectedRequests : Nat
  bulkheadRejections : Nat
deriving DecidableEq, Repr

/-- The state installed by `addMethod`. -/
def BulkheadState.initial : BulkheadState :=
  { active := 0, queue := [], nextId := 0, admitted := [], rejectedRequests := 0
    bulkheadRejections := 0 }

inductive BulkheadOp where
  | acquire
  | timeoutFire (id : Nat)
  | release
deriving DecidableEq, Repr

/-- The immediate outcome of `#acquireMethodBulkheadPermit`. -/
inductive AcquireOutcome where
  | admitted
  | enqueued (id : Nat)
  | rejectedCapacity
deriving DecidableEq, Repr

def acquireOutcome (cfg : BulkheadConfig) (s : BulkheadState) : AcquireOutcome :=
  if cfg.enabled = false then .admitted
  else if s.active < (cfg.maxConcurrentRequests : Int) then .admitted
  else if s.queue.length < cfg.maxQueueSize then .enqueued s.nextId
  else .rejectedCapacity

/-- One state transition of the per-method bulkhead: an acquisition
(`#acquireMethodBulkheadPermit`), a queue-timeout timer firing for
waiter `id` (the `setTimeout` callback: `findIndex` + `splice`), or a
release (`#releaseMethodBulkheadPermit`: decrement, then dequeue the
head if any and re-increment). -/
def bulkheadStep (cfg : BulkheadConfig) : BulkheadOp → BulkheadState → BulkheadState
  | .acquire, s =>
    if cfg.enabled = false then s
    else if s.active < (cfg.maxConcurrentRequests : Int) then
      { s with active := s.active + 1 }
    else if s.queue.length < cfg.maxQueueSize then
      { s with queue := s.queue ++ [s.nextId], nextId := s.nextId + 1 }
    else
      { s with rejectedRequests := s.rejectedRequests + 1
               bulkheadRejections := s.bulkheadRejections + 1 }
  | .timeoutFire i, s =>
    if cfg.enabled = false then s
    else { s with queue := s.queue.erase i }
  | .release, s =>
    if cfg.enabled = false then s
    else
      match s.queue with
      | [] => { s with active := s.active - 1 }
      | h :: t =>
        { s with active := s.active - 1 + 1, queue := t
                 admitted := s.admitted ++ [h] }

def bulkheadRun (cfg : BulkheadConfig) (ops : List BulkheadOp) : BulkheadState :=
  ops.foldl (fun s op => bulkheadStep cfg op s) BulkheadState.initial

/-- Inductive invariant of the bulkhead state machine. -/
def BulkheadInv (cfg : BulkheadConfig) (s : BulkheadState) : Prop :=
  s.active ≤ (cfg.maxConcurrentRequests : Int) ∧
  s.queue.length ≤ cfg.maxQueueSize ∧
  List.Pairwise (· < ·) s.queue ∧
  List.Pairwise (· < ·) s.admitted ∧
  (∀ a ∈ s.admitted, ∀ q ∈ s.queue, a < q) ∧
  (∀ q ∈ s.queue, q < s.nextId) ∧
  (∀ a ∈ s.admitted, a < s.nextId)

lemma bulkheadInv_initial (cfg : BulkheadConfig) :
    BulkheadInv cfg BulkheadState.initial := by
  refine ⟨?_, ?_, ?_, ?_, ?_, ?_, ?_⟩ <;>
    simp [BulkheadState.initial]

lemma bulkheadStep_inv (cfg : BulkheadConfig) (op : BulkheadOp)
    (s : BulkheadState) (h : BulkheadInv cfg s) :
    BulkheadInv cfg (bulkheadStep cfg op s) := by
  obtain ⟨hact, hlen, hqp, hap, hcross, hqb, hab⟩ := h
  cases op with
  | acquire =>
    simp only [bulkheadStep]
    split_ifs with h1 h2 h3
    · exact ⟨hact, hlen, hqp, hap, hcross, hqb, hab⟩
    · exact ⟨by show s.active + 1 ≤ (cfg.maxConcurrentRequests : Int); omega,
        hlen, hqp, hap, hcross, hqb, hab⟩
    · refine ⟨hact, by simp only [List.length_append, List.length_singleton]; omega,
        ?_, hap, ?_, ?_, ?_⟩
      · refine List.pairwise_append.mpr ⟨hqp, List.pairwise_singleton _ _, ?_⟩
        intro a ha b hb
        simp only [List.mem_singleton] at hb
        subst hb
        exact hqb a ha
      · intro a ha q hq
        rcases List.mem_append.mp hq with hq | hq
        · exact hcross a ha q hq
        · simp only [List.mem_singleton] at hq
          subst hq
          exact hab a ha
      · intro q hq
        rcases List.mem_append.mp hq with hq | hq
        · exact Nat.lt_succ_of_lt (hqb q hq)
        · simp only [List.mem_singleton] at hq
          subst hq
          exact Nat.lt_succ_self _
      · intro a ha
        exact Nat.lt_succ_of_lt (hab a ha)
    · exact ⟨hact, hlen, hqp, hap, hcross, hqb, hab⟩
  | timeoutFire i =>
    simp only [bulkheadStep]
    split_ifs with h1
    · exact ⟨hact, hlen, hqp, hap, hcross, hqb, hab⟩
    · have hsub : List.Sublist (s.queue.erase i) s.queue := List.erase_sublist i s.queue
      refine ⟨hact, le_trans hsub.length_le hlen, hqp.sublist hsub, hap, ?_, ?_, hab⟩
      · intro a ha q hq
        exact hcross a ha q (hsub.subset hq)
      · intro q hq
        exact hqb q (hsub.subset hq)
  | release =>
    simp only [bulkheadStep]
    split_ifs with h1
    · exact ⟨hact, hlen, hqp, hap, hcross, hqb, hab⟩
    · cases hq : s.queue with
      | nil =>
        simp only [hq]
        exact ⟨by show s.active - 1 ≤ (cfg.maxConcurrentRequests : Int); omega,
          by simp, by simp, hap, by simp, by simp, hab⟩
      | cons hd tl =>
        simp only [hq]
        rw [hq] at hqp hlen hcross hqb
        have hqp' := List.pairwise_cons.mp hqp
        refine ⟨by show s.active - 1 + 1 ≤ (cfg.maxConcurrentRequests : Int); omega,
          by simp at hlen ⊢; omega, hqp'.2, ?_, ?_, ?_, ?_⟩
        · refine List.pairwise_append.mpr ⟨hap, List.pairwise_singleton _ _, ?_⟩
          intro a ha b hb
          simp only [List.mem_singleton] at hb
          rw [hb]
          exact hcross a ha hd (List.mem_cons_self hd tl)
        · intro a ha q hq'
          rcases List.mem_append.mp ha with ha | ha
          · exact hcross a ha q (List.mem_cons_of_mem hd hq')
          · simp only [List.mem_singleton] at ha
            subst ha
            exact hqp'.1 q hq'
        · intro q hq'
          exact hqb q (List.mem_cons_of_mem hd hq')
        · intro a ha
          rcases List.mem_append.mp ha with ha | ha
          · exact hab a ha
          · simp only [List.mem_singleton] at ha
            rw [ha]
            exact hqb hd (List.mem_cons_self hd tl)

lemma bulkheadRun_inv (cfg : BulkheadConfig) (ops : List BulkheadOp) :
    BulkheadInv cfg (bulkheadRun cfg ops) := by
  have hgen : ∀ (l : List BulkheadOp) (s : BulkheadState), BulkheadInv cfg s →
      BulkheadInv cfg (l.foldl (fun s op => bulkheadStep cfg op s) s) := by
    intro l
    induction l with
    | nil => intro s hs; exact hs
    | cons op l ih =>
      intro s hs
      exact ih _ (bulkheadStep_inv cfg op s hs)
  exact hgen ops _ (bulkheadInv_initial cfg)

/-- **C4.** For a bulkhead-enabled method, after any sequence of
acquisitions, queue-timeout firings and releases from the fresh state:
`activeRequests ≤ maxConcurrentRequests`, the queued-waiter count is at
most `maxQueueSize`, and the log of waiters admitted from the queue is
strictly increasing in enqueue ids — i.e. queued waiters are admitted in
exactly their enqueue (FIFO) order. -/
theorem bulkhead_invariants_and_fifo (cfg : BulkheadConfig)
    (_hen : cfg.enabled = true) (ops : List BulkheadOp) :
    (bulkheadRun cfg ops).active ≤ (cfg.maxConcurrentRequests : Int) ∧
    (bulkheadRun cfg ops).queue.length ≤ cfg.maxQueueSize ∧
    List.Pairwise (· < ·) (bulkheadRun cfg ops).admitted := by
  obtain ⟨h1, h2, _, h4, _⟩ := bulkheadRun_inv cfg ops
  exact ⟨h1, h2, h4⟩

/-- Witness for C4: capacity 1, queue bound 1, five operations
(saturate, enqueue, overflow-reject, release-admitting-the-waiter,
release). -/
theorem bulkhead_invariants_and_fifo_witness :
    (bulkheadRun ⟨true, 1, 1, 10000⟩
        [.acquire, .acquire, .acquire, .release, .release]).active ≤
      ((1 : Nat) : Int) ∧
    (bulkheadRun ⟨true, 1, 1, 10000⟩
        [.acquire, .acquire, .acquire, .release, .release]).queue.length ≤ 1 ∧
    List.Pairwise (· < ·)
      (bulkheadRun ⟨true, 1, 1, 10000⟩
        [.acquire, .acquire, .acquire, .release, .release]).admitted :=
  bulkhead_invariants_and_fifo ⟨true, 1, 1, 10000⟩ rfl
    [.acquire, .acquire, .acquire, .release, .release]

/-! ### Bulkhead rejection surfacing (`#handleRequest`, lines 1244-1261) -/

/-- The two errors thrown by `#acquireMethodBulkheadPermit`, with the
messages of the `Error` objects of the source. -/
inductive BulkheadError where
  | queueTimeout (methodName : String)
  | capacityExceeded (methodName : String)
deriving DecidableEq, Repr

def BulkheadError.message : BulkheadError → String
  | .queueTimeout m => "Method " ++ m ++ " bulkhead queue timeout"
  | .capacityExceeded m => "Method " ++ m ++ " bulkhead capacity exceeded - request rejected"

/-- An error envelope as written by `#sendResponse`; `reason` is the
`extra.reason` field. -/
structure ErrorResponse where
  status : Nat
  code : String
  message : String
  reason : String
deriving DecidableEq, Repr

/-- The catch block of `#handleRequest` around the bulkhead acquisition:
any `bulkheadError` is mapped to this envelope. -/
def dispatchBulkheadRejection (e : BulkheadError) : ErrorResponse :=
  match e with
  | .queueTimeout m =>
    { status := 503, code := "METHOD_BULKHEAD_EXCEEDED"
      message := "Method " ++ m ++ " is overloaded"
      reason := "bulkhead_capacity_exceeded" }
  | .capacityExceeded m =>
    { status := 503, code := "METHOD_BULKHEAD_EXCEEDED"
      message := "Method " ++ m ++ " is overloaded"
      reason := "bulkhead_capacity_exceeded" }

/-- **C5 counterexample.** A queue-timeout rejection is surfaced with
`extra.reason = "bulkhead_capacity_exceeded"`, not `"queue_timeout"`
(and the capacity rejection carries the same reason string, not
`"capacity"`). -/
theorem bulkhead_queueTimeout_reason_not_queue_timeout :
    (dispatchBulkheadRejection (.queueTimeout "echo")).reason
        = "bulkhead_capacity_exceeded" ∧
    ¬ ((dispatchBulkheadRejection (.queueTimeout "echo")).reason = "queue_timeout") ∧
    ¬ ((dispatchBulkheadRejection (.capacityExceeded "echo")).reason = "capacity") := by
  refine ⟨rfl, ?_, ?_⟩ <;> decide

/-- **C5 (amended).** On a saturated bulkhead: (a) when the queue timer
fires for a queued waiter, the waiter is removed from the queue and the
request fails with the queue-timeout `Error`, which `#handleRequest`
surfaces as HTTP 503 `METHOD_BULKHEAD_EXCEEDED` with
`extra.reason = "bulkhead_capacity_exceeded"`; (b) when the queue is
already full, `rejectedRequests` and `bulkheadRejections` are both
incremented and the request fails immediately with the capacity `Error`,
surfaced as the same HTTP 503 `METHOD_BULKHEAD_EXCEEDED` envelope. -/
theorem bulkhead_rejection_paths (cfg : BulkheadConfig)
    (hen : cfg.enabled = true) :
    (∀ (ops : List BulkheadOp) (i : Nat),
      i ∈ (bulkheadRun cfg ops).queue →
        i ∉ (bulkheadStep cfg (.timeoutFire i) (bulkheadRun cfg ops)).queue ∧
        (bulkheadStep cfg (.timeoutFire i) (bulkheadRun cfg ops)).queue.length
          = (bulkheadRun cfg ops).queue.length - 1) ∧
    (∀ m : String,
      dispatchBulkheadRejection (.queueTimeout m)
        = ⟨503, "METHOD_BULKHEAD_EXCEEDED", "Method " ++ m ++ " is overloaded",
            "bulkhead_capacity_exceeded"⟩) ∧
    (∀ s : BulkheadState, acquireOutcome cfg s = .rejectedCapacity →
      (bulkheadStep cfg .acquire s).rejectedRequests = s.rejectedRequests + 1 ∧
      (bulkheadStep cfg .acquire s).bulkheadRejections = s.bulkheadRejections + 1) ∧
    (∀ m : String,
      dispatchBulkheadRejection (.capacityExceeded m)
        = ⟨503, "METHOD_BULKHEAD_EXCEEDED", "Method " ++ m ++ " is overloaded",
            "bulkhead_capacity_exceeded"⟩) := by
  have hne : ¬ (cfg.enabled = false) := by rw [hen]; decide
  refine ⟨?_, fun m => rfl, ?_, fun m => rfl⟩
  · intro ops i hi
    obtain ⟨-, -, hqp, -⟩ := bulkheadRun_inv cfg ops
    have hnodup : (bulkheadRun cfg ops).queue.Nodup :=
      hqp.imp (fun hlt => Nat.ne_of_lt hlt)
    constructor
    · simp only [bulkheadStep]
      rw [if_neg hne]
      intro hmem
      have := (hnodup.mem_erase_iff).mp hmem
      exact this.1 rfl
    · simp only [bulkheadStep]
      rw [if_neg hne]
      exact List.length_erase_of_mem hi
  · intro s hout
    unfold acquireOutcome at hout
    by_cases h2 : s.active < (cfg.maxConcurrentRequests : Int)
    · rw [if_neg hne, if_pos h2] at hout
      simp at hout
    by_cases h3 : s.queue.length < cfg.maxQueueSize
    · rw [if_neg hne, if_neg h2, if_pos h3] at hout
      simp at hout
    · simp only [bulkheadStep]
      rw [if_neg hne, if_neg h2, if_neg h3]
      exact ⟨rfl, rfl⟩

/-- Witness for C5: capacity 1, queue bound 1; two acquisitions fill the
slot and the queue, the timer then fires for waiter 0, and a third
acquisition on the saturated state is rejected. -/
theorem bulkhead_rejection_paths_witness :
    (0 ∉ (bulkheadStep ⟨true, 1, 1, 10000⟩ (.timeoutFire 0)
        (bulkheadRun ⟨true, 1, 1, 10000⟩ [.acquire, .acquire])).queue ∧
      (bulkheadStep ⟨true, 1, 1, 10000⟩ (.timeoutFire 0)
        (bulkheadRun ⟨true, 1, 1, 10000⟩ [.acquire, .acquire])).queue.length
        = (bulkheadRun ⟨true, 1, 1, 10000⟩ [.acquire, .acquire]).queue.length - 1) ∧
    dispatchBulkheadRejection (.queueTimeout "echo")
      = ⟨503, "METHOD_BULKHEAD_EXCEEDED", "Method " ++ "echo" ++ " is overloaded",
          "bulkhead_capacity_exceeded"⟩ ∧
    ((bulkheadStep ⟨true, 1, 1, 10000⟩ .acquire
        (bulkheadRun ⟨true, 1, 1, 10000⟩ [.acquire, .acquire])).rejectedRequests
      = (bulkheadRun ⟨true, 1, 1, 10000⟩ [.acquire, .acquire]).rejectedRequests + 1 ∧
     (bulkheadStep ⟨true, 1, 1, 10000⟩ .acquire
        (bulkheadRun ⟨true, 1, 1, 10000⟩ [.acquire, .acquire])).bulkheadRejections
      = (bulkheadRun ⟨true, 1, 1, 10000⟩ [.acquire, .acquire]).bulkheadRejections + 1) := by
  have h := bulkhead_rejection_paths ⟨true, 1, 1, 10000⟩ rfl
  exact ⟨h.1 [.acquire, .acquire] 0 (by decide), h.2.1 "echo",
    h.2.2.1 (bulkheadRun ⟨true, 1, 1, 10000⟩ [.acquire, .acquire]) (by decide)⟩

/-! ### Retry engine (`#shouldRetry`, `#calculateRetryDelay` and the
retry loop of `request`), and the envelope decoding of `#makeRequest`. -/

/-- An element of the `retryOn` array. JavaScript `includes` compares
with strict equality, so a number only ever matches a number and a
string a string. -/
inductive RetryOnItem where
  | statusCode (n : Int)
  | errorCode (s : String)
deriving DecidableEq, Repr

def DEFAULT_RETRY_ON : List RetryOnItem :=
  [.statusCode 500, .statusCode 502, .statusCode 503, .statusCode 504]

/-- An `Error` object as it reaches `#shouldRetry`: `message`, and the
optional `code` / `status` fields. -/
structure RPCError where
  message : String
  code : Option String
  status : Option Int
deriving DecidableEq, Repr

/-- JS truthiness of an optional numeric field (`undefined` and `0` are falsy). -/
def jsTruthyInt : Option Int → Bool
  | none => false
  | some v => v != 0

/-- JS truthiness of an optional string field (`undefined` and `""` are falsy). -/
def jsTruthyString : Option String → Bool
  | none => false
  | some s => s != ""

/-- JS `x || d` for a numeric field. -/
def jsOrInt : Option Int → Int → Int
  | none, d => d
  | some v, d => if v = 0 then d else v

/-- JS `x || d` for a string field. -/
def jsOrString : Option String → String → String
  | none, d => d
  | some s, d => if s = "" then d else s

/-- `hay.includes(needle)` on strings, over the character lists. -/
def strContainsSubstr (hay needle : String) : Bool :=
  (List.range (hay.length + 1)).any
    (fun i => needle.data.isPrefixOf (hay.data.drop i))

/-- `s.startsWith(p)` of JS, over the character lists. -/
def jsStartsWith (s p : String) : Bool :=
  p.data.isPrefixOf s.data

/-- `#shouldRetry` of the enhanced variant: membership of the status in
`retryOn`, membership of the code in `retryOn`, or a timeout-looking
message when `retryOn` holds `ETIMEDOUT`. There is no list of
non-retryable hard codes in this variant. -/
def shouldRetry (e : RPCError) (retryOn : List RetryOnItem) : Bool :=
  if retryOn.isEmpty then false
  else if jsTruthyInt e.status && retryOn.contains (.statusCode (e.status.getD 0)) then true
  else if jsTruthyString e.code && retryOn.contains (.errorCode (e.code.getD "")) then true
  else if retryOn.contains (.errorCode "ETIMEDOUT") && strContainsSubstr e.message "timeout" then
    true
  else false

/-- A peer response envelope `{error, message, status?}` as decoded by
the `req.on('end')` handler of `#makeRequest`. -/
structure ErrorEnvelope where
  error : String
  message : Option String
  status : Option Int
deriving DecidableEq, Repr

/-- `#makeRequest` on an `{error, ...}` envelope builds
`Error(response.message || 'RPC Error')` with `code = response.error`
and `status = response.status || 500`. -/
def envelopeToError (env : ErrorEnvelope) : RPCError :=
  { message := jsOrString env.message "RPC Error"
    code := some env.error
    status := some (jsOrInt env.status 500) }

/-- The retry loop of `request` on a permanently available attempt
function: `runAttempts attempt retryOn k fuel` performs attempt `k` and,
while the attempt fails, `#shouldRetry` approves and fuel remains,
continues with attempt `k + 1`. Returns the surfaced result and the
number of attempts performed. -/
def runAttempts {A : Type} (attempt : Nat → Except RPCError A)
    (retryOn : List RetryOnItem) : Nat → Nat → Except RPCError A × Nat
  | k, 0 =>
    match attempt k with
    | .ok a => (.ok a, 1)
    | .error e => (.error e, 1)
  | k, fuel + 1 =>
    match attempt k with
    | .ok a => (.ok a, 1)
    | .error e =>
      if shouldRetry e retryOn then
        let r := runAttempts attempt retryOn (k + 1) fuel
        (r.1, r.2 + 1)
      else (.error e, 1)

/-- The `for (attempt = 0; attempt <= maxRetries; ...)` loop of `request`. -/
def requestLoop {A : Type} (attempt : Nat → Except RPCError A)
    (retryOn : List RetryOnItem) (maxRetries : Nat) : Except RPCError A × Nat :=
  runAttempts attempt retryOn 0 maxRetries

/-- The hard codes the spec declares non-retryable. -/
def NON_RETRYABLE_SPEC_CODES : List String :=
  ["UNAUTHORIZED", "FORBIDDEN", "BAD_REQUEST", "INVALID_JSON",
   "METHOD_NOT_FOUND", "PAYLOAD_TOO_LARGE"]

/-- A peer envelope `{error: "UNAUTHORIZED", message}` with no status field. -/
def unauthorizedEnvelope : ErrorEnvelope :=
  { error := "UNAUTHORIZED", message := some "Unauthorized", status := none }

/-- **C1 counterexample.** The peer envelope `{error: "UNAUTHORIZED",
message}` is decoded with `status = 500`, `#shouldRetry` approves it
under the default `retryOn`, and with `maxRetries = 3` the retry loop
performs 4 attempts — not 1 as the claim requires. -/
theorem unauthorized_envelope_is_retried :
    (envelopeToError unauthorizedEnvelope).code = some "UNAUTHORIZED" ∧
    shouldRetry (envelopeToError unauthorizedEnvelope) DEFAULT_RETRY_ON = true ∧
    (requestLoop (fun _ => (.error (envelopeToError unauthorizedEnvelope) : Except RPCError Unit))
        DEFAULT_RETRY_ON 3).2 = 4 ∧
    ¬ ((requestLoop (fun _ => (.error (envelopeToError unauthorizedEnvelope) : Except RPCError Unit))
        DEFAULT_RETRY_ON 3).2 = 1) := by
  refine ⟨rfl, rfl, rfl, ?_⟩
  decide

lemma runAttempts_const_error {A : Type} (attempt : Nat → Except RPCError A)
    (e : RPCError) (retryOn : List RetryOnItem)
    (hatt : ∀ k, attempt k = .error e) :
    ∀ fuel k,
      (shouldRetry e retryOn = false →
        runAttempts attempt retryOn k fuel = (.error e, 1)) ∧
      (shouldRetry e retryOn = true →
        runAttempts attempt retryOn k fuel = (.error e, fuel + 1)) := by
  intro fuel
  induction fuel with
  | zero =>
    intro k
    constructor <;> intro _ <;> simp [runAttempts, hatt k]
  | succ n ih =>
    intro k
    constructor <;> intro hsr
    · simp [runAttempts, hatt k, hsr]
    · have := (ih (k + 1)).2 hsr
      simp [runAttempts, hatt k, hsr, this]

/-- **C1 (amended).** The enhanced `#shouldRetry` has no list of
non-retryable hard codes: for an error whose `code` is one of the
spec's hard codes and an attempt function that always fails with it,
the loop surfaces the error on first observation exactly when
`#shouldRetry` (status / code membership in `retryOn`, or the
timeout-message rule) rejects it, and otherwise performs all
`maxRetries + 1` attempts — the `retryOn` configuration alone decides. -/
theorem hard_code_retry_decided_by_retryOn {A : Type}
    (attempt : Nat → Except RPCError A) (e : RPCError)
    (retryOn : List RetryOnItem) (maxRetries : Nat) (c : String)
    (_hc : e.code = some c) (_hhard : c ∈ NON_RETRYABLE_SPEC_CODES)
    (hatt : ∀ k, attempt k = .error e) :
    (shouldRetry e retryOn = false →
      requestLoop attempt retryOn maxRetries = (.error e, 1)) ∧
    (shouldRetry e retryOn = true →
      (requestLoop attempt retryOn maxRetries).2 = maxRetries + 1) := by
  have h := runAttempts_const_error attempt e retryOn hatt maxRetries 0
  exact ⟨fun hf => h.1 hf, fun ht => by rw [requestLoop, h.2 ht]⟩

/-- Witness for the amended C1: the UNAUTHORIZED envelope error under
the default `retryOn` is retried through all 4 attempts, while under an
empty `retryOn` it is surfaced on first observation. -/
theorem hard_code_retry_decided_by_retryOn_witness :
    (requestLoop (fun _ => (.error (envelopeToError unauthorizedEnvelope) : Except RPCError Unit))
        DEFAULT_RETRY_ON 3).2 = 3 + 1 ∧
    requestLoop (fun _ => (.error (envelopeToError unauthorizedEnvelope) : Except RPCError Unit))
        ([] : List RetryOnItem) 3 = (.error (envelopeToError unauthorizedEnvelope), 1) := by
  constructor
  · exact (hard_code_retry_decided_by_retryOn _ _ DEFAULT_RETRY_ON 3 "UNAUTHORIZED"
      rfl (by decide) (fun _ => rfl)).2 rfl
  · exact (hard_code_retry_decided_by_retryOn _ _ ([] : List RetryOnItem) 3 "UNAUTHORIZED"
      rfl (by decide) (fun _ => rfl)).1 rfl

/-! ### Backoff delay (`#calculateRetryDelay`) -/

structure RetryDelayConfig where
  initialDelay : ℚ
  maxDelay : ℚ
  backoffFactor : ℚ
  jitterEnabled : Bool
deriving DecidableEq, Repr

/-- `#calculateRetryDelay`: exponential backoff capped at `maxDelay`,
then ±25% jitter from the uniform draw `u = Math.random() ∈ [0,1)`,
clamped at 0. -/
def calculateRetryDelay (cfg : RetryDelayConfig) (attempt : Nat) (u : ℚ) : ℚ :=
  let delay := cfg.initialDelay * cfg.backoffFactor ^ attempt
  let delay := min delay cfg.maxDelay
  let delay := if cfg.jitterEnabled then delay + delay * (1/4) * (u - 1/2) * 2 else delay
  max delay 0

/-- **C6.** With `d = min(initialDelay · backoffFactor^k, maxDelay)`:
with jitter the slept delay equals `max(0, d + d·0.25·(2u − 1))`,
without jitter it equals `d`, and in every case it lies in `[0, d·1.25]`. -/
theorem retryDelay_formula_and_bounds (cfg : RetryDelayConfig) (k : Nat) (u : ℚ)
    (h0 : 0 ≤ cfg.initialDelay) (hb : 0 ≤ cfg.backoffFactor)
    (hm : 0 ≤ cfg.maxDelay) (_hu0 : 0 ≤ u) (hu1 : u < 1) :
    (cfg.jitterEnabled = true →
      calculateRetryDelay cfg k u
        = max 0 (min (cfg.initialDelay * cfg.backoffFactor ^ k) cfg.maxDelay
            + min (cfg.initialDelay * cfg.backoffFactor ^ k) cfg.maxDelay
                * (1/4) * (2 * u - 1))) ∧
    (cfg.jitterEnabled = false →
      calculateRetryDelay cfg k u
        = min (cfg.initialDelay * cfg.backoffFactor ^ k) cfg.maxDelay) ∧
    0 ≤ calculateRetryDelay cfg k u ∧
    calculateRetryDelay cfg k u
      ≤ min (cfg.initialDelay * cfg.backoffFactor ^ k) cfg.maxDelay * (5/4) := by
  have hcalc : calculateRetryDelay cfg k u
      = max (if cfg.jitterEnabled then
              min (cfg.initialDelay * cfg.backoffFactor ^ k) cfg.maxDelay
              + min (cfg.initialDelay * cfg.backoffFactor ^ k) cfg.maxDelay
                  * (1/4) * (u - 1/2) * 2
            else min (cfg.initialDelay * cfg.backoffFactor ^ k) cfg.maxDelay) 0 := rfl
  have hd : 0 ≤ min (cfg.initialDelay * cfg.backoffFactor ^ k) cfg.maxDelay :=
    le_min (mul_nonneg h0 (pow_nonneg hb k)) hm
  set d := min (cfg.initialDelay * cfg.backoffFactor ^ k) cfg.maxDelay with hdef
  refine ⟨?_, ?_, ?_, ?_⟩
  · intro hj
    rw [hcalc, hj, if_pos rfl, max_comm]
    congr 1
    ring
  · intro hj
    rw [hcalc, hj]
    simp only [Bool.false_eq_true, if_false]
    exact max_eq_left hd
  · rw [hcalc]
    exact le_max_right _ _
  · rw [hcalc]
    split_ifs with hj
    · rw [max_le_iff]
      constructor
      · nlinarith [hd, hu1]
      · nlinarith [hd]
    · rw [max_eq_left hd]
      nlinarith [hd]

/-- Witness for C6 at `initialDelay = 500`, `maxDelay = 5000`,
`backoffFactor = 2`, `k = 1`, `u = 1/2`. -/
theorem retryDelay_formula_and_bounds_witness :
    ((⟨500, 5000, 2, true⟩ : RetryDelayConfig).jitterEnabled = true →
      calculateRetryDelay ⟨500, 5000, 2, true⟩ 1 (1/2)
        = max 0 (min ((500 : ℚ) * 2 ^ 1) 5000
            + min ((500 : ℚ) * 2 ^ 1) 5000 * (1/4) * (2 * (1/2) - 1))) ∧
    ((⟨500, 5000, 2, true⟩ : RetryDelayConfig).jitterEnabled = false →
      calculateRetryDelay ⟨500, 5000, 2, true⟩ 1 (1/2)
        = min ((500 : ℚ) * 2 ^ 1) 5000) ∧
    0 ≤ calculateRetryDelay ⟨500, 5000, 2, true⟩ 1 (1/2) ∧
    calculateRetryDelay ⟨500, 5000, 2, true⟩ 1 (1/2)
      ≤ min ((500 : ℚ) * 2 ^ 1) 5000 * (5/4) :=
  retryDelay_formula_and_bounds ⟨500, 5000, 2, true⟩ 1 (1/2)
    (by norm_num) (by norm_num) (by norm_num) (by norm_num) (by norm_num)

/-! ### JWT RS256 validation (`#validateJWT`, `#checkAuth`).

The token string's parse pipeline (split on dots, base64url + JSON
decode of the first two segments, RSA-SHA256 verification of the third
against the configured public key — the crypto primitive is an external
collaborator) is abstracted into a record of its results. -/

structure JWTHeader where
  alg : Option String
deriving DecidableEq, Repr

structure JWTPayload where
  exp : Option Int
  nbf : Option Int
  iss : Option String
  aud : Option String
deriving DecidableEq, Repr

structure JWTToken where
  /-- the first three `split('.')` parts exist and are non-empty -/
  formatOk : Bool
  /-- `JSON.parse` of the decoded header and payload segments; on
  failure, the thrown exception's message -/
  parsed : Except String (JWTHeader × JWTPayload)
  /-- `crypto.verify` of the signature over `header.payload` -/
  sigValid : Bool
deriving Repr

structure JWTConfig where
  jwtAuth : Bool
  jwtPublicKey : Option String
  jwtIssuer : Option String
  jwtAudience : Option String
deriving DecidableEq, Repr

/-- The three possible values `#validateJWT` returns: the bare boolean
`true` (when auth is off or no public key is configured),
`{valid: true, payload}`, or `{valid: false, error}`. -/
inductive JWTResult where
  | boolTrue
  | valid (payload : JWTPayload)
  | invalid (reason : String)
deriving DecidableEq, Repr

/-- `#validateJWT`. -/
def validateJWT (cfg : JWTConfig) (now : Int) (t : JWTToken) : JWTResult :=
  if !cfg.jwtAuth || !(jsTruthyString cfg.jwtPublicKey) then .boolTrue
  else if t.formatOk = false then .invalid "Invalid token format"
  else
    match t.parsed with
    | .error m => .invalid m
    | .ok (h, p) =>
      if h.alg ≠ some "RS256" then .invalid "Invalid algorithm"
      else if t.sigValid = false then .invalid "Invalid signature"
      else if jsTruthyInt p.exp && decide (p.exp.getD 0 < now) then .invalid "Token expired"
      else if jsTruthyInt p.nbf && decide (now < p.nbf.getD 0) then .invalid "Token not yet valid"
      else if jsTruthyString cfg.jwtIssuer && decide (p.iss ≠ cfg.jwtIssuer) then
        .invalid "Invalid issuer"
      else if jsTruthyString cfg.jwtAudience && decide (p.aud ≠ cfg.jwtAudience) then
        .invalid "Invalid audience"
      else .valid p

/-- The ordered list of verification checks as the spec words them,
each paired with its failure reason: format, JSON parse, algorithm,
signature, `exp`, `nbf`, `iss`, `aud`. `none` means the check passes. -/
def jwtFailures (cfg : JWTConfig) (now : Int) (t : JWTToken) : List (Option String) :=
  (if t.formatOk = false then some "Invalid token format" else none) ::
  (match t.parsed with
   | .error m => [some m]
   | .ok (h, p) =>
     [none,
      if h.alg ≠ some "RS256" then some "Invalid algorithm" else none,
      if t.sigValid = false then some "Invalid signature" else none,
      if jsTruthyInt p.exp && decide (p.exp.getD 0 < now) then some "Token expired" else none,
      if jsTruthyInt p.nbf && decide (now < p.nbf.getD 0) then some "Token not yet valid" else none,
      if jsTruthyString cfg.jwtIssuer && decide (p.iss ≠ cfg.jwtIssuer) then
        some "Invalid issuer" else none,
      if jsTruthyString cfg.jwtAudience && decide (p.aud ≠ cfg.jwtAudience) then
        some "Invalid audience" else none])

def firstSome {α : Type} : List (Option α) → Option α
  | [] => none
  | some a :: _ => some a
  | none :: l => firstSome l

def jwtParsedPayload (t : JWTToken) : JWTPayload :=
  match t.parsed with
  | .ok (_, p) => p
  | .error _ => ⟨none, none, none, none⟩

/-- Modelled from the spec: the verifier contract — the result is the
first failing check of the ordered list, else acceptance with the
parsed claims. -/
def specValidateJWT (cfg : JWTConfig) (now : Int) (t : JWTToken) : JWTResult :=
  if !cfg.jwtAuth || !(jsTruthyString cfg.jwtPublicKey) then .boolTrue
  else
    match firstSome (jwtFailures cfg now t) with
    | some r => .invalid r
    | none => .valid (jwtParsedPayload t)

def JWT_REASONS : List String :=
  ["Invalid token format", "Invalid algorithm", "Invalid signature",
   "Token expired", "Token not yet valid", "Invalid issuer", "Invalid audience"]

/-- **C7.** With auth enabled and a public key configured,
`#validateJWT` computes exactly the first-failure semantics of the
ordered check list (so the checks run in the stated order and
short-circuit on the first failure, and a token passing all checks is
accepted with its claims), and the failure reasons are pairwise
distinct. -/
theorem validateJWT_first_failure_order (cfg : JWTConfig) (now : Int) (t : JWTToken)
    (hauth : cfg.jwtAuth = true) (hkey : jsTruthyString cfg.jwtPublicKey = true) :
    validateJWT cfg now t = specValidateJWT cfg now t ∧
    List.Pairwise (· ≠ ·) JWT_REASONS := by
  constructor
  · have hguard : (!cfg.jwtAuth || !(jsTruthyString cfg.jwtPublicKey)) = false := by
      rw [hauth, hkey]
      rfl
    unfold validateJWT specValidateJWT jwtFailures
    rw [hguard]
    simp only [Bool.false_eq_true, if_false]
    by_cases hf : t.formatOk = false
    · rw [if_pos hf, if_pos hf]
      simp [firstSome]
    · rw [if_neg hf, if_neg hf]
      cases hp : t.parsed with
      | error m => simp [firstSome]
      | ok pr =>
        obtain ⟨h, p⟩ := pr
        by_cases halg : h.alg = some "RS256"
        · by_cases hsig : t.sigValid = false
          · simp [halg, hsig, firstSome]
          · by_cases hexp : (jsTruthyInt p.exp && decide (p.exp.getD 0 < now)) = true
            · simp [halg, hsig, hexp, firstSome]
            · by_cases hnbf : (jsTruthyInt p.nbf && decide (now < p.nbf.getD 0)) = true
              · simp [halg, hsig, hexp, hnbf, firstSome]
              · by_cases hiss :
                  jsTruthyString cfg.jwtIssuer = true ∧ ¬p.iss = cfg.jwtIssuer
                · simp [halg, hsig, hexp, hnbf, hiss, firstSome]
                · by_cases haud :
                    jsTruthyString cfg.jwtAudience = true ∧ ¬p.aud = cfg.jwtAudience
                  · simp [halg, hsig, hexp, hnbf, hiss, haud, firstSome]
                  · simp [halg, hsig, hexp, hnbf, hiss, haud, firstSome,
                      jwtParsedPayload, hp]
        · simp [halg, firstSome]
  · decide

/-- Witness for C7: a token whose signature is invalid but which also
has a bad audience is rejected for the signature (the earlier check),
at a concrete enabled configuration. -/
theorem validateJWT_first_failure_order_witness :
    validateJWT ⟨true, some "KEY", some "iss", some "aud"⟩ 1000
        ⟨true, .ok (⟨some "RS256"⟩, ⟨some 2000, none, some "iss", some "wrong"⟩), false⟩
      = specValidateJWT ⟨true, some "KEY", some "iss", some "aud"⟩ 1000
        ⟨true, .ok (⟨some "RS256"⟩, ⟨some 2000, none, some "iss", some "wrong"⟩), false⟩ ∧
    List.Pairwise (· ≠ ·) JWT_REASONS :=
  validateJWT_first_failure_order ⟨true, some "KEY", some "iss", some "aud"⟩ 1000
    ⟨true, .ok (⟨some "RS256"⟩, ⟨some 2000, none, some "iss", some "wrong"⟩), false⟩
    rfl rfl

/-! ### Inbound authentication (`#checkAuth` and the 401 path of
`#handleRequest`) -/

/-- JS access `validation.valid`: on the bare boolean `true` the field
is `undefined`, hence falsy. -/
def JWTResult.validField : JWTResult → Bool
  | .boolTrue => false
  | .valid _ => true
  | .invalid _ => false

/-- JS access `validation.error` (`undefined` modelled as `none`). -/
def JWTResult.errorField : JWTResult → Option String
  | .invalid r => some r
  | _ => none

/-- JS access `validation.payload`. -/
def JWTResult.payloadField : JWTResult → Option JWTPayload
  | .valid p => some p
  | _ => none

structure AuthResult where
  authorized : Bool
  user : Option JWTPayload
  error : Option String
deriving DecidableEq, Repr

/-- `#checkAuth`: `tok` is the parse-pipeline abstraction of the token
substring after `Bearer `; returns the result and the new
`authFailures` counter. -/
def checkAuth (cfg : JWTConfig) (excludedPaths : List String) (now : Int)
    (pathname : String) (authHeader : Option String) (tok : JWTToken)
    (authFailures : Nat) : AuthResult × Nat :=
  if !cfg.jwtAuth || excludedPaths.contains pathname then
    ({ authorized := true, user := none, error := none }, authFailures)
  else
    match authHeader with
    | none =>
      ({ authorized := false, user := none
         error := some "Missing or invalid Authorization header" }, authFailures)
    | some hdr =>
      if !(jsStartsWith hdr "Bearer ") then
        ({ authorized := false, user := none
           error := some "Missing or invalid Authorization header" }, authFailures)
      else
        let validation := validateJWT cfg now tok
        if validation.validField = false then
          ({ authorized := false, user := none, error := validation.errorField },
            authFailures + 1)
        else
          ({ authorized := true, user := validation.payloadField, error := none },
            authFailures)

/-- The 401 envelope written by `#handleRequest` when `#checkAuth`
refuses: `{error: UNAUTHORIZED, message: authResult.error}`. -/
structure AuthFailureResponse where
  status : Nat
  error : String
  message : Option String
deriving DecidableEq, Repr

def unauthorizedResponse (a : AuthResult) : AuthFailureResponse :=
  { status := 401, error := "UNAUTHORIZED", message := a.error }

/-- **C10.** With `jwtAuth` on but `jwtPublicKey` null, `#validateJWT`
returns the bare boolean `true`; `#checkAuth` reads its absent `valid`
field as falsy, so for every Bearer token on a non-excluded path the
request is refused, `authFailures` is incremented, and the dispatcher
responds 401 `UNAUTHORIZED` with an undefined message — no token is
ever accepted in this configuration. -/
theorem nullKey_rejects_every_bearer_token (cfg : JWTConfig)
    (excluded : List String) (now : Int) (pathname : String)
    (hdr : String) (tok : JWTToken) (af : Nat)
    (hauth : cfg.jwtAuth = true) (hkey : cfg.jwtPublicKey = none)
    (hex : excluded.contains pathname = false)
    (hbearer : jsStartsWith hdr "Bearer " = true) :
    validateJWT cfg now tok = .boolTrue ∧
    checkAuth cfg excluded now pathname (some hdr) tok af
      = ({ authorized := false, user := none, error := none }, af + 1) ∧
    unauthorizedResponse
        (checkAuth cfg excluded now pathname (some hdr) tok af).1
      = ⟨401, "UNAUTHORIZED", none⟩ := by
  have hval : validateJWT cfg now tok = .boolTrue := by
    unfold validateJWT
    rw [hauth, hkey]
    rfl
  have hchk : checkAuth cfg excluded now pathname (some hdr) tok af
      = ({ authorized := false, user := none, error := none }, af + 1) := by
    unfold checkAuth
    rw [hauth, hex]
    simp only [Bool.not_true, Bool.or_false, Bool.false_eq_true, if_false]
    rw [hbearer]
    simp only [Bool.not_true, Bool.false_eq_true, if_false]
    rw [hval]
    rfl
  exact ⟨hval, hchk, by rw [hchk]; rfl⟩

/-- Witness for C10 on a well-formed, correctly signed, unexpired token. -/
theorem nullKey_rejects_every_bearer_token_witness :
    validateJWT ⟨true, none, none, none⟩ 1000
        ⟨true, .ok (⟨some "RS256"⟩, ⟨some 2000, none, none, none⟩), true⟩ = .boolTrue ∧
    checkAuth ⟨true, none, none, none⟩ ["health-check"] 1000 "echo"
        (some "Bearer abc")
        ⟨true, .ok (⟨some "RS256"⟩, ⟨some 2000, none, none, none⟩), true⟩ 7
      = ({ authorized := false, user := none, error := none }, 7 + 1) ∧
    unauthorizedResponse
        (checkAuth ⟨true, none, none, none⟩ ["health-check"] 1000 "echo"
          (some "Bearer abc")
          ⟨true, .ok (⟨some "RS256"⟩, ⟨some 2000, none, none, none⟩), true⟩ 7).1
      = ⟨401, "UNAUTHORIZED", none⟩ :=
  nullKey_rejects_every_bearer_token ⟨true, none, none, none⟩ ["health-check"]
    1000 "echo" "Bearer abc"
    ⟨true, .ok (⟨some "RS256"⟩, ⟨some 2000, none, none, none⟩), true⟩ 7
    rfl rfl (by decide) (by decide)

/-! ### Outbound timeouts (`#createTimeoutPromise` and the timeout
rejections inside `#makeRequest`) -/

/-- `#createTimeoutPromise timeout op` racing the operation (settling at
`opTime`, relative to the wrapper's start) against the timer: on expiry
it increments `metrics.timeoutCount` (the returned `Nat`) and rejects
with the request-timeout `Error`; otherwise the operation's outcome
passes through with no increment. -/
def createTimeoutPromise {A : Type} (timeout : Int) (op : Except RPCError A)
    (opTime : Int) : Except RPCError A × Nat :=
  if opTime < timeout then (op, 0)
  else
    (.error { message := "Request timeout after " ++ toString timeout ++ "ms"
              code := none, status := none }, 1)

/-- The connection-timeout rejection inside `#makeRequest`: the session
not ready within `connectionTimeout` destroys the client and rejects
with a plain `Error`; no metric is updated (increment 0). -/
def connectionTimeoutFailure (connectionTimeout : Int) : RPCError × Nat :=
  ({ message := "Connection timeout after " ++ toString connectionTimeout ++ "ms"
     code := none, status := none }, 0)

/-- An attempt whose session never becomes ready, as composed by
`request`: `#makeRequest` rejects at `connectionTimeout` with the
connection-timeout error, and the surrounding `#createTimeoutPromise`
(armed with `requestTimeout`) passes it through; the `Nat` sums the two
`timeoutCount` increments. -/
def attemptWithConnectionTimeout (connectionTimeout requestTimeout : Int) :
    Except RPCError Unit × Nat :=
  let inner := connectionTimeoutFailure connectionTimeout
  let outer := createTimeoutPromise requestTimeout (.error inner.1) connectionTimeout
  (outer.1, inner.2 + outer.2)

/-- **C9 counterexample.** Under the default timeouts (connection 5000
ms < request 30000 ms), a connection-timeout failure surfaces the
connection-timeout error while `timeoutCount` is incremented 0 times —
not every outbound timeout failure increments the metric. -/
theorem connection_timeout_does_not_increment_timeoutCount :
    (attemptWithConnectionTimeout 5000 30000).2 = 0 ∧
    (attemptWithConnectionTimeout 5000 30000).1
      = .error (connectionTimeoutFailure 5000).1 := by
  exact ⟨rfl, rfl⟩

/-- **C9 (amended).** Only the expiry of the outer
`#createTimeoutPromise` wrapper increments `timeoutCount`: an attempt
exceeding `requestTimeout` increments it by exactly 1 and is surfaced
as the request-timeout `Error` (message only — the error carries no
`TIMEOUT` code field), while a connection timeout (session not ready
within `connectionTimeout < requestTimeout`) is surfaced as the
connection-timeout `Error` with no increment. -/
theorem timeoutCount_incremented_only_by_request_timeout {A : Type}
    (rt ct : Int) (op : Except RPCError A) (opTime : Int)
    (hexp : rt ≤ opTime) (hlt : ct < rt) :
    createTimeoutPromise rt op opTime
      = (.error { message := "Request timeout after " ++ toString rt ++ "ms"
                  code := none, status := none }, 1) ∧
    ((createTimeoutPromise rt op opTime).2 = 1 ∧
      (attemptWithConnectionTimeout ct rt).2 = 0 ∧
      (attemptWithConnectionTimeout ct rt).1
        = .error (connectionTimeoutFailure ct).1) := by
  have h1 : createTimeoutPromise rt op opTime
      = (.error { message := "Request timeout after " ++ toString rt ++ "ms"
                  code := none, status := none }, 1) := by
    unfold createTimeoutPromise
    rw [if_neg (by omega)]
  have h2 : (attemptWithConnectionTimeout ct rt).2 = 0 := by
    simp [attemptWithConnectionTimeout, connectionTimeoutFailure, createTimeoutPromise, hlt]
  have h3 : (attemptWithConnectionTimeout ct rt).1
      = .error (connectionTimeoutFailure ct).1 := by
    simp [attemptWithConnectionTimeout, connectionTimeoutFailure, createTimeoutPromise, hlt]
  exact ⟨h1, by rw [h1], h2, h3⟩

/-- Witness for the amended C9 at the default 30000/5000 timeouts, with
an operation settling at 30000. -/
theorem timeoutCount_incremented_only_by_request_timeout_witness :
    createTimeoutPromise 30000 (.ok () : Except RPCError Unit) 30000
      = (.error { message := "Request timeout after " ++ toString (30000 : Int) ++ "ms"
                  code := none, status := none }, 1) ∧
    ((createTimeoutPromise 30000 (.ok () : Except RPCError Unit) 30000).2 = 1 ∧
      (attemptWithConnectionTimeout 5000 30000).2 = 0 ∧
      (attemptWithConnectionTimeout 5000 30000).1
        = .error (connectionTimeoutFailure 5000).1) :=
  timeoutCount_incremented_only_by_request_timeout 30000 5000
    (.ok () : Except RPCError Unit) 30000 (by decide) (by decide)

/-- **C8 counterexample.** With no `resilience.circuitBreaker.recoveryTimeout`
option, the effective recovery timeout is not 60000 ms. -/
theorem recoveryTimeout_default_not_60000 :
    ¬ ((mkCircuitBreakerConfig none).recoveryTimeout = 60000) := by
  decide

/-- **C8 (amended).** With no `resilience.circuitBreaker.recoveryTimeout`
option, the effective circuit-breaker recovery timeout defaults to
10000 ms (`DEFAULTS.RESILIENCE.CIRCUIT_BREAKER.RECOVERY_TIMEOUT`). -/
theorem recoveryTimeout_defaults_to_10000 :
    (mkCircuitBreakerConfig none).recoveryTimeout = 10000 := by
  decide

end RpcMate
